import Mathlib

/-!
Shallow embedding of `src/handler.py`, a serverless handler for a ComfyUI
video-generation endpoint.  Python dicts are modelled as association lists
(`Assoc`), preserving insertion order; JSON values as `JVal`; Python
exceptions as `Except` with an error type `PyErr` mirroring the exception
classes raised by the code.  Wall-clock time is discretised: one unit per
poll iteration.  External effects (HTTP requests, the filesystem, the S3
client) are supplied as explicit oracle functions in environment records,
so every definition is executable.
-/

/-- A JSON-like value as stored in workflow node inputs and request params. -/
inductive JVal where
  | str (s : String)
  | num (n : Int)
  | boolean (b : Bool)
  | arr (xs : List JVal)
  | nullv

/-- Python dict modelled as an insertion-ordered association list. -/
abbrev Assoc (α : Type) := List (String × α)

/-- Python `d[k]` lookup returning `none` when the key is absent
(`k in d` is `(lookupA d k).isSome`). -/
def lookupA {α : Type} (l : Assoc α) (k : String) : Option α :=
  match l with
  | [] => none
  | (k1, v) :: rest => if k1 = k then some v else lookupA rest k

/-- Python `d[k] = v`: replace in place when the key exists (keeping
insertion order), append otherwise. -/
def setKey {α : Type} (l : Assoc α) (k : String) (v : α) : Assoc α :=
  match l with
  | [] => [(k, v)]
  | (k1, v1) :: rest => if k1 = k then (k, v) :: rest else (k1, v1) :: setKey rest k v

/-- Index of the last occurrence of a character in a list, if any. -/
def lastIdxOf (c : Char) (cs : List Char) : Option Nat :=
  ((cs.enum.filter (fun p => p.2 == c)).getLast?).map (fun p => p.1)

/-- `os.path.basename`: the part of the path after the last slash. -/
def basename (p : String) : String :=
  match lastIdxOf '/' p.data with
  | some j => String.mk (p.data.drop (j + 1))
  | none => p

/-- The extension part of `os.path.splitext` (including the leading dot,
empty when the basename has no dot after a non-dot character). -/
def splitextExt (p : String) : String :=
  let cs := p.data
  let fstart := match lastIdxOf '/' cs with
    | some j => j + 1
    | none => 0
  match lastIdxOf '.' cs with
  | none => ""
  | some d =>
      if fstart ≤ d then
        if ((cs.drop fstart).take (d - fstart)).any (fun ch => ch != '.') then
          String.mk (cs.drop d)
        else ""
      else ""

/-- `os.path.join` for the two-argument uses in the handler (directory
constants carry no trailing slash; an absolute second component wins). -/
def joinPath (a b : String) : String :=
  if b.data.head? = some '/' then b else a ++ "/" ++ b

/-- The Python exception classes raised by the handler's own code. -/
inductive PyErr where
  | valueError (msg : String)
  | fileNotFoundError (msg : String)
  | runtimeError (msg : String)
  | timeoutError (msg : String)
  | requestError (msg : String)

/-- Python `str(e)` on the exceptions above: the message. -/
def PyErr.str : PyErr → String
  | .valueError m => m
  | .fileNotFoundError m => m
  | .runtimeError m => m
  | .timeoutError m => m
  | .requestError m => m

/-- A workflow node: the `class_type` discriminator (absent when the dict
lacks the key, as `node.get(\x7b...\x7d)` allows), the `inputs` mapping, and
any remaining keys of the node dict, which the handler never touches.
Python's `node.get("inputs", \x7b\x7d)` treats a missing inputs dict like an
empty one, which is how an absent mapping is modelled here. -/
structure Node where
  class_type : Option String
  inputs : Assoc JVal
  rest : Assoc JVal

/-- A job graph: node identifier to node definition, insertion-ordered. -/
abbrev Graph := Assoc Node

/-- The flat caller-supplied parameter mapping. -/
abbrev Params := Assoc JVal

/-- `WORKFLOWS_DIR` constant. -/
def WORKFLOWS_DIR : String := "/comfyui/workflows"

/-- The `AVAILABLE_WORKFLOWS` registry: workflow identifier to file name. -/
def AVAILABLE_WORKFLOWS : Assoc String :=
  [("t2v", "t2v.json"), ("i2v", "i2v.json"),
   ("fun_camera", "fun_camera.json"), ("vace", "vace.json")]

/-- `load_workflow`: resolve a workflow identifier against the registry and
deserialize its backing file.  The filesystem oracle `fs` maps a path to the
parsed (`json.load`) graph, or `none` when the file does not exist. -/
def load_workflow (fs : String → Option Graph) (workflow_type : String) :
    Except PyErr Graph :=
  match lookupA AVAILABLE_WORKFLOWS workflow_type with
  | none =>
      Except.error (PyErr.valueError
        ("Unknown workflow_type: " ++ workflow_type ++ ". Available: " ++
          String.intercalate ", " (AVAILABLE_WORKFLOWS.map (fun p => p.1))))
  | some fname =>
      let workflow_path := joinPath WORKFLOWS_DIR fname
      match fs workflow_path with
      | none => Except.error (PyErr.fileNotFoundError
          ("Workflow file not found: " ++ workflow_path))
      | some g => Except.ok g

/-- The per-node body of `update_workflow_with_inputs`: overwrite the text
input of a `CLIPTextEncode` node from `positive_prompt`, else `prompt`; for
a `LoadImage` node with `image_url` present, download to
`/tmp/input_image_<node_id>.png` and store that basename as the image input
(`download_image` returns its save path; downloads are assumed to succeed —
a fetch failure raises and no bound graph is produced). -/
def bindNode (params : Params) (node_id : String) (node : Node) : Node :=
  let n1 :=
    if node.class_type = some "CLIPTextEncode" then
      if (lookupA node.inputs "text").isSome then
        match lookupA params "positive_prompt" with
        | some v => { node with inputs := setKey node.inputs "text" v }
        | none =>
            match lookupA params "prompt" with
            | some v => { node with inputs := setKey node.inputs "text" v }
            | none => node
      else node
    else node
  if node.class_type = some "LoadImage" then
    if (lookupA params "image_url").isSome then
      { n1 with inputs :=
          setKey n1.inputs "image" (JVal.str ("input_image_" ++ node_id ++ ".png")) }
    else n1
  else n1

/-- `update_workflow_with_inputs`: apply `bindNode` to every node of the
graph (the Python loop mutates each node independently in place). -/
def update_workflow_with_inputs (workflow : Graph) (params : Params) : Graph :=
  workflow.map (fun p => (p.1, bindNode params p.1 p.2))

/-- One media descriptor of the output manifest (`image_info` /
`video_info`): the `filename` key when present.  Other keys of the
descriptor are never read. -/
structure MediaInfo where
  filename : Option String

/-- One node's record in the output manifest: the `images` and `videos`
lists when the corresponding keys are present. -/
structure NodeOutput where
  images : Option (List MediaInfo)
  videos : Option (List MediaInfo)

/-- The output manifest: producing-node identifier to output record. -/
abbrev Outputs := Assoc NodeOutput

/-- The inner loop shared by the `images` and `videos` passes of
`get_output_files`: append the joined path of each descriptor that carries
a filename and whose path exists (`ex` is the `os.path.exists` oracle). -/
def collectMedia (ex : String → Bool) : List MediaInfo → List String → List String
  | [], acc => acc
  | info :: rest, acc =>
      match info.filename with
      | some fn =>
          let file_path := joinPath "/comfyui/output" fn
          if ex file_path then collectMedia ex rest (acc ++ [file_path])
          else collectMedia ex rest acc
      | none => collectMedia ex rest acc

/-- The per-node body of the `get_output_files` loop: the images pass when
the `images` key is present, then the videos pass when `videos` is. -/
def collectNodeStep (ex : String → Bool) (files : List String)
    (p : String × NodeOutput) : List String :=
  let files1 := match p.2.images with
    | some imgs => collectMedia ex imgs files
    | none => files
  match p.2.videos with
  | some vids => collectMedia ex vids files1
  | none => files1

/-- `get_output_files`: walk the manifest in node order, images before
videos, collecting existing local paths. -/
def get_output_files (ex : String → Bool) (outputs : Outputs) : List String :=
  outputs.foldl (collectNodeStep ex) []

/-- Modelled from the spec's words for §4.5 `collect` (the refinement side
of the Output Collector claim): one entry per image/video descriptor whose
derived path exists, node order, image list before video list, list order,
no dedup. -/
def mediaPathSpec (ex : String → Bool) (info : MediaInfo) : Option String :=
  info.filename.bind (fun fn =>
    let file_path := joinPath "/comfyui/output" fn
    if ex file_path then some file_path else none)

/-- Modelled from the spec's words for §4.5 `collect`: the manifest-order
concatenation of the existing image paths then video paths of each node. -/
def collectSpec (ex : String → Bool) (outputs : Outputs) : List String :=
  (outputs.map (fun p =>
    ((p.2.images.getD []).filterMap (mediaPathSpec ex)) ++
      ((p.2.videos.getD []).filterMap (mediaPathSpec ex)))).flatten

/-- The polling loop of `wait_for_completion`, discretised: tick `t` is the
`t`-th one-second iteration, `rem` the iterations left before the deadline
(`rem = timeout - t` throughout).  `hist t` is the body of
`GET /history/(prompt_id)` at tick `t`: `none` when the handle is not yet a
key of the history mapping, otherwise the handle's `outputs` field. -/
def waitLoop (hist : Nat → Option Outputs) (prompt_id : String) (timeout : Nat) :
    Nat → Nat → Except PyErr Outputs
  | _, 0 => Except.error (PyErr.timeoutError
      ("Workflow " ++ prompt_id ++ " did not complete within " ++
        toString timeout ++ " seconds"))
  | t, rem + 1 =>
      match hist t with
      | some output =>
          if output.isEmpty then waitLoop hist prompt_id timeout (t + 1) rem
          else Except.ok output
      | none => waitLoop hist prompt_id timeout (t + 1) rem

/-- `wait_for_completion`: poll once per time-unit from tick 0 until the
handle appears with non-empty outputs or `timeout` ticks elapse (the Python
default for `timeout` is 600; the handler's only call uses that default). -/
def wait_for_completion (hist : Nat → Option Outputs) (prompt_id : String)
    (timeout : Nat) : Except PyErr Outputs :=
  waitLoop hist prompt_id timeout 0 timeout

/-- The four S3 environment values; `none` models an unset variable. -/
structure S3Config where
  endpoint : Option String
  bucket : Option String
  accessKey : Option String
  secretKey : Option String

/-- `upload_to_s3`: raise `ValueError` unless all four configuration values
are present; otherwise attempt the put (outcome supplied by the `putOk`
oracle, standing for the boto3 call; its failure message is abstracted) and
return the public URL built from the endpoint (trailing slash stripped),
bucket and key. -/
def upload_to_s3 (cfg : S3Config) (putOk : Bool) (s3_key : String) :
    Except String String :=
  match cfg.endpoint, cfg.bucket, cfg.accessKey, cfg.secretKey with
  | some ep, some bucket, some _, some _ =>
      if putOk then
        let base_url := if ep.data.getLast? = some '/'
          then String.mk ep.data.dropLast else ep
        Except.ok (base_url ++ "/" ++ bucket ++ "/" ++ s3_key)
      else Except.error "failed to upload"
  | _, _, _, _ => Except.error "S3 configuration is incomplete"

/-- The success-path media-kind classification (line 313 of the source):
video extensions, then image extensions, else `unknown`. -/
def classify (ext : String) : String :=
  if ext ∈ [".mp4", ".webm", ".avi", ".mov"] then "video"
  else if ext ∈ [".png", ".jpg", ".jpeg"] then "image"
  else "unknown"

/-- The fallback-path classification (line 326 of the source): video
extensions, else `image` — there is no `unknown` case on this path. -/
def classifyFallback (ext : String) : String :=
  if ext ∈ [".mp4", ".webm", ".avi", ".mov"] then "video" else "image"

/-- Python string interpolation of the possibly-`None` workflow name. -/
def wfStr : Option String → String
  | some s => s
  | none => "None"

/-- The storage key for the `i`-th produced file: workflow namespace,
shared request timestamp, ordinal, original extension. -/
def s3KeyOf (wf : Option String) (ts : Nat) (i : Nat) (file_path : String) :
    String :=
  "generated/" ++ wfStr wf ++ "/" ++ toString ts ++ "_" ++ toString i ++
    splitextExt file_path

/-- Oracles for the delivery loop: S3 configuration, the per-ordinal put
outcome, `os.path.getsize`, and the base64-encoded file contents. -/
structure DeliveryEnv where
  cfg : S3Config
  putOk : Nat → Bool
  size : String → Nat
  b64 : String → String

inductive DeliveryRecord where
  | remote (ty : String) (url : String) (filename : String)
  | inlineB64 (ty : String) (data : String) (format : String)
  | errorRec (message : String)

/-- The body of the delivery loop for one file: try the upload; on any
exception fall back to inline base64 when the file is under 10 MiB, else an
error record citing the byte size. -/
def deliverOne (env : DeliveryEnv) (wf : Option String) (ts : Nat) (i : Nat)
    (file_path : String) : DeliveryRecord :=
  let file_ext := splitextExt file_path
  match upload_to_s3 env.cfg (env.putOk i) (s3KeyOf wf ts i file_path) with
  | Except.ok url => DeliveryRecord.remote (classify file_ext) url (basename file_path)
  | Except.error _ =>
      let file_size := env.size file_path
      if file_size < 10 * 1024 * 1024 then
        DeliveryRecord.inlineB64 (classifyFallback file_ext) (env.b64 file_path)
          (file_ext.drop 1)
      else
        DeliveryRecord.errorRec
          ("File too large for base64 encoding: " ++ toString file_size ++ " bytes")

/-- The delivery loop from ordinal `i` on (`for i, file_path in
enumerate(output_files)`). -/
def deliverFrom (env : DeliveryEnv) (wf : Option String) (ts : Nat) :
    Nat → List String → List DeliveryRecord
  | _, [] => []
  | i, p :: rest => deliverOne env wf ts i p :: deliverFrom env wf ts (i + 1) rest

/-- The whole delivery loop over the produced files (lines 304–336). -/
def deliver (env : DeliveryEnv) (wf : Option String) (ts : Nat)
    (files : List String) : List DeliveryRecord :=
  deliverFrom env wf ts 0 files

/-- The supervisor's world: whether the pre-existing process is alive at
entry (`poll() is None`), whether the `/system_stats` probe at retry `i`
returns 200, whether the spawned process is observed dead right after a
failed probe `i`, and the captured stderr text. -/
structure SupWorld where
  alive : Bool
  health : Nat → Bool
  diesAt : Nat → Bool
  stderrText : String

/-- The module-global supervisor state: `comfyui_process is not None` and
`comfyui_ready`. -/
structure SupState where
  proc : Bool
  ready : Bool

/-- Outcome of `start_comfyui`: normal return, or a raised exception; both
carry the global state as left behind. -/
inductive SupResult where
  | ok (s : SupState)
  | err (e : PyErr) (s : SupState)

/-- The readiness-polling loop after spawning (`for i in range(60)`), with
`rem` retries left and `i` the current retry index: probe the status
endpoint; on 200 set the ready flag and return; else if the process died,
raise with the stderr text; else sleep and retry; after 60 failures raise
the startup-timeout error. -/
def startPollLoop (w : SupWorld) : Nat → Nat → SupResult
  | _, 0 => SupResult.err
      (PyErr.runtimeError "ComfyUI API server failed to start within timeout")
      { proc := true, ready := false }
  | i, rem + 1 =>
      if w.health i then SupResult.ok { proc := true, ready := true }
      else if w.diesAt i then
        SupResult.err (PyErr.runtimeError ("ComfyUI process died: " ++ w.stderrText))
          { proc := true, ready := false }
      else startPollLoop w (i + 1) rem

/-- `start_comfyui` (lines 44–89): return at once when a process handle
exists and the ready flag is set; also return at once when a process handle
exists and the process is still alive — without probing the status endpoint
or consulting the ready flag; otherwise (re)spawn and run the readiness
poll. -/
def start_comfyui (w : SupWorld) (s : SupState) : SupResult :=
  if s.proc ∧ s.ready then SupResult.ok s
  else if s.proc then
    if w.alive then SupResult.ok s
    else startPollLoop w 0 60
  else startPollLoop w 0 60

/-- The `input` mapping of the invocation event (`event.get("input", \x7b\x7d)`
and the four `.get` reads on it; a missing event key is `none`, a missing
`params` defaults to the empty mapping; `input_assets` is read but unused). -/
structure Event where
  workflow_name : Option String
  workflow_json : Option Graph
  params : Params
  input_assets : List JVal

/-- Python truthiness of the optional workflow name: a non-empty string. -/
def truthyStr (o : Option String) : Bool :=
  match o with
  | some s => !s.isEmpty
  | none => false

/-- Python truthiness of the optional workflow graph: a non-empty dict. -/
def truthyGraph (o : Option Graph) : Bool :=
  match o with
  | some g => !g.isEmpty
  | none => false

/-- Everything the one invocation observes of the outside world: the ready
flag at entry, the outcome of `start_comfyui` when invoked, the workflow
file system, the queueing endpoint (`POST /prompt`, returning the handle or
raising), the history endpoint per handle and poll tick, `os.path.exists`,
the delivery oracles, the shared timestamp, and the elapsed time read off
the clock when a result is built. -/
structure HandlerEnv where
  ready : Bool
  startResult : Except PyErr Unit
  workflowFile : String → Option Graph
  queueResult : Graph → Except PyErr String
  waitHistory : String → Nat → Option Outputs
  pathExists : String → Bool
  delivery : DeliveryEnv
  timestamp : Nat
  elapsed : Nat

/-- The `metadata` mapping of a COMPLETED result. -/
structure Metadata where
  workflow_name : Option String
  execution_time : Nat
  prompt_id : String

/-- The result mapping returned by the handler; `none` models an absent
key. -/
structure HandlerResult where
  status : String
  error : Option String := none
  execution_time : Option Nat := none
  outputs : Option (List DeliveryRecord) := none
  metadata : Option Metadata := none

/-- The body of the handler's top-level `try` block (lines 261–348): ensure
the server is ready, validate the input, resolve and bind the workflow,
queue it, await completion with the default 600-unit timeout, collect the
produced files, and run the delivery loop.  Early `return` statements yield
`Except.ok` FAILED results; raised exceptions yield `Except.error`. -/
def handlerBody (env : HandlerEnv) (event : Event) : Except PyErr HandlerResult :=
  match (if env.ready then Except.ok () else env.startResult) with
  | Except.error e => Except.error e
  | Except.ok _ =>
    if !truthyStr event.workflow_name && !truthyGraph event.workflow_json then
      Except.ok { status := "FAILED",
                  error := some "workflow_name or workflow_json is required" }
    else
      match (if truthyGraph event.workflow_json then
               Except.ok (event.workflow_json.getD [])
             else load_workflow env.workflowFile (event.workflow_name.getD "")) with
      | Except.error e => Except.error e
      | Except.ok workflow0 =>
        match env.queueResult (update_workflow_with_inputs workflow0 event.params) with
        | Except.error e => Except.error e
        | Except.ok prompt_id =>
          match wait_for_completion (env.waitHistory prompt_id) prompt_id 600 with
          | Except.error e => Except.error e
          | Except.ok outputs =>
            if (get_output_files env.pathExists outputs).isEmpty then
              Except.ok { status := "FAILED",
                          error := some "No output files generated" }
            else
              Except.ok
                { status := "COMPLETED",
                  outputs := some (deliver env.delivery event.workflow_name
                      env.timestamp (get_output_files env.pathExists outputs)),
                  metadata := some { workflow_name := event.workflow_name,
                                     execution_time := env.elapsed,
                                     prompt_id := prompt_id } }

/-- The `handler` function: the body, with the top-level `except` clause
turning any exception into a FAILED result carrying the error text and the
elapsed time (lines 350–355). -/
def handler (env : HandlerEnv) (event : Event) : HandlerResult :=
  match handlerBody env event with
  | Except.ok r => r
  | Except.error e =>
      { status := "FAILED", error := some (PyErr.str e),
        execution_time := some env.elapsed }

/-! Concrete instances used to exercise the theorems below. -/

/-- A delivery environment with complete S3 configuration where the put of
the first file succeeds and that of the second fails. -/
def envC1 : DeliveryEnv :=
  { cfg := { endpoint := some "http://s3", bucket := some "bkt",
             accessKey := some "id", secretKey := some "secret" }
    putOk := fun i => i == 0
    size := fun p => if p = "/comfyui/output/big.bin" then 20971520 else 5
    b64 := fun _ => "QUJD" }

def filesC1 : List String := ["/comfyui/output/a.png", "/comfyui/output/big.bin"]

/-- A handler environment whose invocation never gets past input
validation. -/
def envC2a : HandlerEnv :=
  { ready := true
    startResult := Except.ok ()
    workflowFile := fun _ => none
    queueResult := fun _ => Except.error (PyErr.requestError "unused")
    waitHistory := fun _ _ => none
    pathExists := fun _ => false
    delivery := { cfg := { endpoint := none, bucket := none,
                           accessKey := none, secretKey := none }
                  putOk := fun _ => false
                  size := fun _ => 0
                  b64 := fun _ => "" }
    timestamp := 0
    elapsed := 9 }

/-- An event carrying neither `workflow_name` nor `workflow_json`. -/
def evC2a : Event :=
  { workflow_name := none, workflow_json := none, params := [], input_assets := [] }

/-- A handler environment whose supervisor startup raises. -/
def envC2b : HandlerEnv :=
  { ready := false
    startResult := Except.error (PyErr.runtimeError
      "ComfyUI API server failed to start within timeout")
    workflowFile := fun _ => none
    queueResult := fun _ => Except.error (PyErr.requestError "unused")
    waitHistory := fun _ _ => none
    pathExists := fun _ => false
    delivery := { cfg := { endpoint := none, bucket := none,
                           accessKey := none, secretKey := none }
                  putOk := fun _ => false
                  size := fun _ => 0
                  b64 := fun _ => "" }
    timestamp := 0
    elapsed := 3 }

def evC2b : Event :=
  { workflow_name := some "t2v", workflow_json := none, params := [], input_assets := [] }

/-- A delivery environment with complete configuration whose puts all fail
(a genuine transport-level upload failure). -/
def envC3x : DeliveryEnv :=
  { cfg := { endpoint := some "http://s3", bucket := some "bkt",
             accessKey := some "id", secretKey := some "secret" }
    putOk := fun _ => false
    size := fun _ => 2
    b64 := fun _ => "QQ" }

/-- A delivery environment with complete configuration whose puts all
succeed. -/
def envC3w : DeliveryEnv :=
  { cfg := { endpoint := some "http://s3", bucket := some "bkt",
             accessKey := some "id", secretKey := some "secret" }
    putOk := fun _ => true
    size := fun _ => 5
    b64 := fun _ => "QUJD" }

/-- A handler environment whose S3 configuration is entirely absent while
everything else succeeds: one produced image of 5 bytes. -/
def envC4h : HandlerEnv :=
  { ready := true
    startResult := Except.ok ()
    workflowFile := fun _ => none
    queueResult := fun _ => Except.ok "abc"
    waitHistory := fun _ _ =>
      some [("9", { images := some [{ filename := some "cat.png" }], videos := none })]
    pathExists := fun _ => true
    delivery := { cfg := { endpoint := none, bucket := none,
                           accessKey := none, secretKey := none }
                  putOk := fun _ => true
                  size := fun _ => 5
                  b64 := fun _ => "QUJD" }
    timestamp := 7
    elapsed := 3 }

/-- An event supplying a one-node graph directly. -/
def evC4 : Event :=
  { workflow_name := none
    workflow_json := some [("1", { class_type := none, inputs := [], rest := [] })]
    params := []
    input_assets := [] }

/-- An S3 configuration with a missing bucket. -/
def cfgC4 : S3Config :=
  { endpoint := some "http://s3", bucket := none,
    accessKey := some "id", secretKey := some "secret" }

/-- A supervisor world with a live pre-existing process whose status
endpoint never answers. -/
def wC5x : SupWorld :=
  { alive := true, health := fun _ => false, diesAt := fun _ => false, stderrText := "" }

/-- A supervisor world whose spawned server answers the first probe. -/
def wC5w : SupWorld :=
  { alive := false, health := fun _ => true, diesAt := fun _ => false, stderrText := "" }

/-- A history oracle: the handle appears at once but its outputs stay empty
during the first tick, then become non-empty. -/
def histC6 : Nat → Option Outputs :=
  fun t => if t = 0 then some []
    else some [("1", { images := some [{ filename := some "cat.png" }], videos := none })]

def outC6 : Outputs :=
  [("1", { images := some [{ filename := some "cat.png" }], videos := none })]

/-- A one-node graph with a text-encode node. -/
def gC7 : Graph :=
  [("1", { class_type := some "CLIPTextEncode",
           inputs := [("text", JVal.str "old")], rest := [] })]

/-- Parameters carrying both prompt keys. -/
def pC7 : Params := [("positive_prompt", JVal.str "A"), ("prompt", JVal.str "B")]

/-- A workflow filesystem carrying only the `t2v` definition. -/
def fsC8 : String → Option Graph :=
  fun p => if p = "/comfyui/workflows/t2v.json"
    then some [("1", { class_type := some "KSampler", inputs := [], rest := [] })]
    else none

/-- A two-node graph: one text-encode node, one sampler node. -/
def gC10 : Graph :=
  [("1", { class_type := some "CLIPTextEncode",
           inputs := [("text", JVal.str "old"), ("clip", JVal.str "ref")],
           rest := [("_meta", JVal.str "m")] }),
   ("2", { class_type := some "KSampler",
           inputs := [("seed", JVal.num 1)], rest := [] })]

/-- Parameters mixing effective and ineffective keys. -/
def pC10 : Params :=
  [("prompt", JVal.str "P"), ("negative_prompt", JVal.str "N"),
   ("seed", JVal.num 99), ("steps", JVal.num 30), ("cfg", JVal.num 7)]

/-- The params keys the binder never reads: keeping only the other keys
must not change its output. -/
def otherParamKeys : String × JVal → Bool := fun kv =>
  kv.1 != "negative_prompt" && kv.1 != "seed" && kv.1 != "steps" && kv.1 != "cfg"

/-! Helper lemmas about the embedded operations. -/

theorem lookupA_setKey_self {α : Type} (l : Assoc α) (k : String) (v : α) :
    lookupA (setKey l k v) k = some v := by
  induction l with
  | nil => simp [setKey, lookupA]
  | cons hd tl ih =>
      obtain ⟨k1, v1⟩ := hd
      by_cases h : k1 = k
      · simp [setKey, h, lookupA]
      · simp [setKey, h, lookupA, ih]

theorem lookupA_setKey_ne {α : Type} (l : Assoc α) (k k2 : String) (v : α)
    (h : k2 ≠ k) : lookupA (setKey l k v) k2 = lookupA l k2 := by
  have hkk2 : ¬ k = k2 := fun hc => h hc.symm
  induction l with
  | nil =>
      simp only [setKey, lookupA]
      rw [if_neg hkk2]
  | cons hd tl ih =>
      obtain ⟨k1, v1⟩ := hd
      simp only [setKey]
      by_cases h1 : k1 = k
      · rw [if_pos h1]
        simp only [lookupA]
        rw [if_neg hkk2, if_neg (show ¬ k1 = k2 from fun hc => hkk2 (h1 ▸ hc))]
      · rw [if_neg h1]
        simp only [lookupA]
        by_cases h2 : k1 = k2
        · rw [if_pos h2, if_pos h2]
        · rw [if_neg h2, if_neg h2, ih]

theorem lookupA_filter {α : Type} (l : Assoc α) (pred : String × α → Bool)
    (k : String) (hp : ∀ v, pred (k, v) = true) :
    lookupA (l.filter pred) k = lookupA l k := by
  induction l with
  | nil => simp [lookupA]
  | cons hd tl ih =>
      obtain ⟨k1, v1⟩ := hd
      by_cases h1 : k1 = k
      · subst h1
        simp [List.filter, hp v1, lookupA]
      · cases hpred : pred (k1, v1) with
        | true => simp [List.filter, hpred, lookupA, h1, ih]
        | false => simp [List.filter, hpred, lookupA, h1, ih]

theorem deliverFrom_getElem? (env : DeliveryEnv) (wf : Option String) (ts : Nat)
    (files : List String) : ∀ (j i : Nat),
    (deliverFrom env wf ts j files)[i]? =
      (files[i]?).map (fun p => deliverOne env wf ts (j + i) p) := by
  induction files with
  | nil => intro j i; simp [deliverFrom]
  | cons f rest ih =>
      intro j i
      cases i with
      | zero => simp [deliverFrom]
      | succ i =>
          simp only [deliverFrom, List.getElem?_cons_succ, ih (j + 1) i]
          have : j + 1 + i = j + (i + 1) := by omega
          rw [this]

theorem deliverFrom_length (env : DeliveryEnv) (wf : Option String) (ts : Nat)
    (files : List String) : ∀ (j : Nat),
    (deliverFrom env wf ts j files).length = files.length := by
  induction files with
  | nil => intro j; simp [deliverFrom]
  | cons f rest ih => intro j; simp [deliverFrom, ih (j + 1)]

theorem waitLoop_stall (hist : Nat → Option Outputs) (pid : String) (timeout : Nat) :
    ∀ (rem t : Nat),
    (∀ u, t ≤ u → u < t + rem → (hist u = none ∨ hist u = some [])) →
    waitLoop hist pid timeout t rem = Except.error (PyErr.timeoutError
      ("Workflow " ++ pid ++ " did not complete within " ++
        toString timeout ++ " seconds")) := by
  intro rem
  induction rem with
  | zero => intro t _; rfl
  | succ rem ih =>
      intro t h
      have h0 := h t (Nat.le_refl t) (by omega)
      have hrec := ih (t + 1) (fun u hu1 hu2 => h u (by omega) (by omega))
      rcases h0 with h0 | h0
      · simp [waitLoop, h0, hrec]
      · simp [waitLoop, h0, List.isEmpty, hrec]

theorem waitLoop_hit (hist : Nat → Option Outputs) (pid : String) (timeout : Nat) :
    ∀ (rem t k : Nat) (out : Outputs),
    t ≤ k → k < t + rem →
    (∀ u, t ≤ u → u < k → (hist u = none ∨ hist u = some [])) →
    hist k = some out → out ≠ [] →
    waitLoop hist pid timeout t rem = Except.ok out := by
  intro rem
  induction rem with
  | zero => intro t k out h1 h2; omega
  | succ rem ih =>
      intro t k out h1 h2 h3 h4 h5
      by_cases htk : t = k
      · subst htk
        cases out with
        | nil => exact absurd rfl h5
        | cons o os => simp [waitLoop, h4, List.isEmpty]
      · have htlt : t < k := by omega
        have h0 := h3 t (Nat.le_refl t) htlt
        have hrec := ih (t + 1) k out (by omega) (by omega)
          (fun u hu1 hu2 => h3 u (by omega) hu2) h4 h5
        rcases h0 with h0 | h0
        · simp [waitLoop, h0, hrec]
        · simp [waitLoop, h0, List.isEmpty, hrec]

theorem startPollLoop_ok (w : SupWorld) :
    ∀ (rem i : Nat) (s2 : SupState), startPollLoop w i rem = SupResult.ok s2 →
    s2 = { proc := true, ready := true } ∧ ∃ j, i ≤ j ∧ j < i + rem ∧ w.health j = true := by
  intro rem
  induction rem with
  | zero => intro i s2 h; exact absurd h (by simp [startPollLoop])
  | succ rem ih =>
      intro i s2 h
      by_cases hh : w.health i
      · simp only [startPollLoop, hh, if_true] at h
        cases h
        exact ⟨rfl, i, Nat.le_refl i, by omega, hh⟩
      · by_cases hd : w.diesAt i
        · simp [startPollLoop, hh, hd] at h
        · simp only [startPollLoop, hh, hd, if_false] at h
          obtain ⟨hs, j, hj1, hj2, hj3⟩ := ih (i + 1) s2 h
          exact ⟨hs, j, by omega, by omega, hj3⟩

theorem collectMedia_eq (ex : String → Bool) (l : List MediaInfo) :
    ∀ (acc : List String),
    collectMedia ex l acc = acc ++ l.filterMap (mediaPathSpec ex) := by
  induction l with
  | nil => intro acc; simp [collectMedia]
  | cons info rest ih =>
      intro acc
      cases hfn : info.filename with
      | none => simp [collectMedia, hfn, ih, List.filterMap_cons, mediaPathSpec]
      | some fn =>
          by_cases hex : ex (joinPath "/comfyui/output" fn)
          · simp [collectMedia, hfn, hex, ih, List.filterMap_cons, mediaPathSpec,
              List.append_assoc]
          · simp [collectMedia, hfn, hex, ih, List.filterMap_cons, mediaPathSpec]

theorem collectNodeStep_eq (ex : String → Bool) (files : List String)
    (p : String × NodeOutput) :
    collectNodeStep ex files p =
      files ++ ((p.2.images.getD []).filterMap (mediaPathSpec ex) ++
                (p.2.videos.getD []).filterMap (mediaPathSpec ex)) := by
  cases hi : p.2.images
  <;> cases hv : p.2.videos
  <;> simp [collectNodeStep, hi, hv, collectMedia_eq, List.append_assoc]

theorem get_output_files_go (ex : String → Bool) (outputs : Outputs) :
    ∀ (acc : List String),
    outputs.foldl (collectNodeStep ex) acc = acc ++ collectSpec ex outputs := by
  induction outputs with
  | nil => intro acc; simp [collectSpec]
  | cons p rest ih =>
      intro acc
      simp only [List.foldl_cons, collectNodeStep_eq, ih]
      simp [collectSpec, List.append_assoc]

theorem bindNode_cte (params : Params) (nid : String) (n : Node)
    (hct : n.class_type = some "CLIPTextEncode") :
    bindNode params nid n =
      (if (lookupA n.inputs "text").isSome then
        match lookupA params "positive_prompt" with
        | some v => { n with inputs := setKey n.inputs "text" v }
        | none =>
            match lookupA params "prompt" with
            | some v => { n with inputs := setKey n.inputs "text" v }
            | none => n
      else n) := by
  have hne : ¬ n.class_type = some "LoadImage" := by rw [hct]; simp
  by_cases ht : (lookupA n.inputs "text").isSome
  <;> simp only [bindNode, hct, hne, ht, if_true, if_false, ite_true, ite_false]
  <;> cases lookupA params "positive_prompt"
  <;> cases lookupA params "prompt"
  <;> simp

theorem bindNode_li (params : Params) (nid : String) (n : Node)
    (hli : n.class_type = some "LoadImage") :
    bindNode params nid n =
      (if (lookupA params "image_url").isSome then
        { n with inputs :=
            setKey n.inputs "image" (JVal.str ("input_image_" ++ nid ++ ".png")) }
      else n) := by
  have hne : ¬ n.class_type = some "CLIPTextEncode" := by rw [hli]; simp
  by_cases hiu : (lookupA params "image_url").isSome
  <;> simp [bindNode, hli, hne, hiu]

theorem bindNode_other (params : Params) (nid : String) (n : Node)
    (h1 : ¬ n.class_type = some "CLIPTextEncode")
    (h2 : ¬ n.class_type = some "LoadImage") :
    bindNode params nid n = n := by
  simp [bindNode, h1, h2]

theorem bindNode_preserves (params : Params) (nid : String) (n : Node) :
    (bindNode params nid n).class_type = n.class_type ∧
      (bindNode params nid n).rest = n.rest := by
  by_cases hct : n.class_type = some "CLIPTextEncode"
  · rw [bindNode_cte params nid n hct]
    by_cases ht : (lookupA n.inputs "text").isSome
    · rw [if_pos ht]
      cases lookupA params "positive_prompt" with
      | some v => exact ⟨rfl, rfl⟩
      | none =>
          cases lookupA params "prompt" with
          | some v => exact ⟨rfl, rfl⟩
          | none => exact ⟨rfl, rfl⟩
    · rw [if_neg ht]; exact ⟨rfl, rfl⟩
  · by_cases hli : n.class_type = some "LoadImage"
    · rw [bindNode_li params nid n hli]
      by_cases hiu : (lookupA params "image_url").isSome
      · rw [if_pos hiu]; exact ⟨rfl, rfl⟩
      · rw [if_neg hiu]; exact ⟨rfl, rfl⟩
    · rw [bindNode_other params nid n hct hli]; exact ⟨rfl, rfl⟩

theorem bindNode_cte_other_inputs (params : Params) (nid : String) (n : Node)
    (hct : n.class_type = some "CLIPTextEncode") (k : String) (hk : k ≠ "text") :
    lookupA (bindNode params nid n).inputs k = lookupA n.inputs k := by
  rw [bindNode_cte params nid n hct]
  by_cases ht : (lookupA n.inputs "text").isSome
  · rw [if_pos ht]
    cases lookupA params "positive_prompt" with
    | some v => simp [lookupA_setKey_ne n.inputs "text" k v hk]
    | none =>
        cases lookupA params "prompt" with
        | some v => simp [lookupA_setKey_ne n.inputs "text" k v hk]
        | none => rfl
  · rw [if_neg ht]

theorem bindNode_li_other_inputs (params : Params) (nid : String) (n : Node)
    (hli : n.class_type = some "LoadImage") (k : String) (hk : k ≠ "image") :
    lookupA (bindNode params nid n).inputs k = lookupA n.inputs k := by
  rw [bindNode_li params nid n hli]
  by_cases hiu : (lookupA params "image_url").isSome
  · rw [if_pos hiu]
    simp [lookupA_setKey_ne n.inputs "image" k _ hk]
  · rw [if_neg hiu]

theorem bindNode_filter_other (params : Params) (nid : String) (n : Node) :
    bindNode (params.filter otherParamKeys) nid n = bindNode params nid n := by
  unfold bindNode
  rw [lookupA_filter params otherParamKeys "positive_prompt" (fun _ => rfl),
      lookupA_filter params otherParamKeys "prompt" (fun _ => rfl),
      lookupA_filter params otherParamKeys "image_url" (fun _ => rfl)]

theorem handlerBody_ok_failed (env : HandlerEnv) (event : Event) (r : HandlerResult)
    (h : handlerBody env event = Except.ok r) (hs : r.status = "FAILED") :
    r.error.isSome = true := by
  unfold handlerBody at h
  split at h
  · exact absurd h (by simp)
  · split at h
    · injection h with h
      subst h
      rfl
    · split at h
      · exact absurd h (by simp)
      · split at h
        · exact absurd h (by simp)
        · split at h
          · exact absurd h (by simp)
          · split at h
            · injection h with h
              subst h
              rfl
            · injection h with h
              subst h
              exact absurd hs (by simp)

/-! The claims. -/

/-- C5 counterexample: with a live pre-existing process whose status
endpoint has never answered and the ready flag unset, `start_comfyui`
returns without raising, with the ready flag still unset — readiness is not
binary on this path. -/
theorem spec_c5_ok_without_ready :
    start_comfyui wC5x { proc := true, ready := false } =
      SupResult.ok { proc := true, ready := false } := rfl

/-- C5 (amended): `start_comfyui` is idempotent when the ready flag is set;
on the paths that actually (re)spawn — no process handle, or a dead process
— returning without raising implies the ready flag is set and some status
probe answered; but when a live process handle exists with the ready flag
unset, it returns immediately without probing, exposing partial
readiness. -/
theorem spec_c5_readiness (w : SupWorld) (s : SupState) :
    (s.proc = true → s.ready = true → start_comfyui w s = SupResult.ok s)
    ∧ (∀ s2, s.proc = false → start_comfyui w s = SupResult.ok s2 →
        s2 = { proc := true, ready := true } ∧ ∃ j, j < 60 ∧ w.health j = true)
    ∧ (∀ s2, s.proc = true → s.ready = false → w.alive = false →
        start_comfyui w s = SupResult.ok s2 →
        s2 = { proc := true, ready := true } ∧ ∃ j, j < 60 ∧ w.health j = true)
    ∧ (s.proc = true → s.ready = false → w.alive = true →
        start_comfyui w s = SupResult.ok s) := by
  refine ⟨?_, ?_, ?_, ?_⟩
  · intro h1 h2
    unfold start_comfyui
    rw [if_pos ⟨h1, h2⟩]
  · intro s2 hproc h
    simp only [start_comfyui, hproc] at h
    simp at h
    obtain ⟨hs, j, hj0, hj60, hh⟩ := startPollLoop_ok w 60 0 s2 h
    exact ⟨hs, j, by omega, hh⟩
  · intro s2 hproc hready halive h
    simp only [start_comfyui, hproc, hready, halive] at h
    simp at h
    obtain ⟨hs, j, hj0, hj60, hh⟩ := startPollLoop_ok w 60 0 s2 h
    exact ⟨hs, j, by omega, hh⟩
  · intro h1 h2 h3
    simp [start_comfyui, h1, h2, h3]

theorem spec_c5_readiness_witness :
    (({ proc := true, ready := true } : SupState) = { proc := true, ready := true }
      ∧ ∃ j, j < 60 ∧ wC5w.health j = true)
    ∧ start_comfyui wC5w { proc := true, ready := true } =
        SupResult.ok { proc := true, ready := true } :=
  ⟨(spec_c5_readiness wC5w { proc := false, ready := false }).2.1
      { proc := true, ready := true } rfl rfl,
    (spec_c5_readiness wC5w { proc := true, ready := true }).1 rfl rfl⟩

/-- C6: `wait_for_completion` polls the history of the handle once per
time-unit; a handle that never appears within the timeout yields a timeout
error naming the handle; a handle whose outputs stay empty is polled again
until the outputs are non-empty (success) or the timeout elapses (the same
timeout error).  The handler's only call passes the Python default of
600. -/
theorem spec_c6_wait_polling (hist : Nat → Option Outputs) (pid : String)
    (timeout : Nat) :
    ((∀ t, t < timeout → hist t = none) →
      wait_for_completion hist pid timeout = Except.error (PyErr.timeoutError
        ("Workflow " ++ pid ++ " did not complete within " ++
          toString timeout ++ " seconds")))
    ∧ (∀ k out, k < timeout → (∀ t, t < k → hist t = some []) →
        hist k = some out → out ≠ [] →
        wait_for_completion hist pid timeout = Except.ok out)
    ∧ ((∀ t, t < timeout → hist t = some []) →
      wait_for_completion hist pid timeout = Except.error (PyErr.timeoutError
        ("Workflow " ++ pid ++ " did not complete within " ++
          toString timeout ++ " seconds"))) := by
  refine ⟨?_, ?_, ?_⟩
  · intro h
    exact waitLoop_stall hist pid timeout timeout 0
      (fun u _ hu2 => Or.inl (h u (by omega)))
  · intro k out hk hpre hsome hne
    exact waitLoop_hit hist pid timeout timeout 0 k out (by omega) (by omega)
      (fun u _ hu2 => Or.inr (hpre u hu2)) hsome hne
  · intro h
    exact waitLoop_stall hist pid timeout timeout 0
      (fun u _ hu2 => Or.inr (h u (by omega)))

theorem spec_c6_wait_polling_witness :
    wait_for_completion histC6 "abc" 600 = Except.ok outC6 := by
  refine (spec_c6_wait_polling histC6 "abc" 600).2.1 1 outC6 (by decide) ?_ rfl
    (by simp [outC6])
  intro t ht
  have h0 : t = 0 := by omega
  subst h0
  rfl

/-- C7: for every graph and parameter set, binding sets the text input of a
text-encode node to `params.positive_prompt` when that key is present, else
to `params.prompt` when present, and otherwise leaves it unchanged; when
both keys are present, `positive_prompt` wins. -/
theorem spec_c7_prompt_priority (g : Graph) (params : Params) (i : Nat)
    (nid : String) (n : Node) (hg : g[i]? = some (nid, n))
    (hct : n.class_type = some "CLIPTextEncode")
    (htext : (lookupA n.inputs "text").isSome = true) :
    (update_workflow_with_inputs g params)[i]? = some (nid, bindNode params nid n)
    ∧ lookupA (bindNode params nid n).inputs "text" =
        (match lookupA params "positive_prompt" with
         | some v => some v
         | none =>
             match lookupA params "prompt" with
             | some v => some v
             | none => lookupA n.inputs "text") := by
  constructor
  · unfold update_workflow_with_inputs
    rw [List.getElem?_map, hg]
    rfl
  · rw [bindNode_cte params nid n hct, if_pos htext]
    cases hpp : lookupA params "positive_prompt" with
    | some v => simp [lookupA_setKey_self]
    | none =>
        cases hp : lookupA params "prompt" with
        | some v => simp [lookupA_setKey_self]
        | none => simp

theorem spec_c7_prompt_priority_witness :
    lookupA (bindNode pC7 "1"
      { class_type := some "CLIPTextEncode",
        inputs := [("text", JVal.str "old")], rest := [] }).inputs "text" =
      some (JVal.str "A") :=
  (spec_c7_prompt_priority gC7 pC7 0 "1"
    { class_type := some "CLIPTextEncode",
      inputs := [("text", JVal.str "old")], rest := [] } rfl rfl rfl).2

/-- C9: `get_output_files` equals the spec-side collector: one local path
per image or video descriptor whose derived path exists, descriptors with a
non-existing path excluded, no dedup, ordered by manifest node order with
each node's image list before its video list, each in list order. -/
theorem spec_c9_collect_refinement (ex : String → Bool) (outputs : Outputs) :
    get_output_files ex outputs = collectSpec ex outputs := by
  unfold get_output_files
  rw [get_output_files_go]
  simp

/-- C10: the binder changes only the `text` input of `CLIPTextEncode`
nodes and the `image` input of `LoadImage` nodes; node identifiers, node
count, `class_type`, the untouched node keys, every other node, and every
other input key are unchanged, and dropping the unread params keys
(`negative_prompt`, `seed`, `steps`, `cfg`) leaves the bound graph
identical. -/
theorem spec_c10_binder_frame (g : Graph) (params : Params) (i : Nat)
    (nid : String) (n : Node) (hg : g[i]? = some (nid, n)) :
    (update_workflow_with_inputs g params).length = g.length
    ∧ (update_workflow_with_inputs g params)[i]? = some (nid, bindNode params nid n)
    ∧ (bindNode params nid n).class_type = n.class_type
    ∧ (bindNode params nid n).rest = n.rest
    ∧ (n.class_type ≠ some "CLIPTextEncode" → n.class_type ≠ some "LoadImage" →
        bindNode params nid n = n)
    ∧ (n.class_type = some "CLIPTextEncode" → ∀ k, k ≠ "text" →
        lookupA (bindNode params nid n).inputs k = lookupA n.inputs k)
    ∧ (n.class_type = some "LoadImage" → ∀ k, k ≠ "image" →
        lookupA (bindNode params nid n).inputs k = lookupA n.inputs k)
    ∧ update_workflow_with_inputs g (params.filter otherParamKeys) =
        update_workflow_with_inputs g params := by
  refine ⟨?_, ?_, (bindNode_preserves params nid n).1,
    (bindNode_preserves params nid n).2,
    fun h1 h2 => bindNode_other params nid n h1 h2,
    fun hct k hk => bindNode_cte_other_inputs params nid n hct k hk,
    fun hli k hk => bindNode_li_other_inputs params nid n hli k hk, ?_⟩
  · simp [update_workflow_with_inputs]
  · unfold update_workflow_with_inputs
    rw [List.getElem?_map, hg]
    rfl
  · unfold update_workflow_with_inputs
    exact List.map_congr_left (fun p _ => by rw [bindNode_filter_other])

theorem spec_c10_binder_frame_witness :
    bindNode pC10 "2"
        { class_type := some "KSampler", inputs := [("seed", JVal.num 1)], rest := [] }
      = { class_type := some "KSampler", inputs := [("seed", JVal.num 1)], rest := [] }
    ∧ update_workflow_with_inputs gC10 (pC10.filter otherParamKeys) =
        update_workflow_with_inputs gC10 pC10 := by
  have h := spec_c10_binder_frame gC10 pC10 1 "2"
    { class_type := some "KSampler", inputs := [("seed", JVal.num 1)], rest := [] } rfl
  exact ⟨h.2.2.2.2.1 (by decide) (by decide), h.2.2.2.2.2.2.2⟩

/-- C8: a registry member with an existing backing file resolves to the
deserialization of the stored definition; an identifier outside the
registry fails with a `ValueError` whose message lists exactly the
registry's keys; a registry member whose backing file is missing fails with
a `FileNotFoundError`. -/
theorem spec_c8_workflow_resolution (fs : String → Option Graph) (wt : String) :
    (∀ fname, lookupA AVAILABLE_WORKFLOWS wt = some fname →
      (∀ g, fs (joinPath WORKFLOWS_DIR fname) = some g →
        load_workflow fs wt = Except.ok g)
      ∧ (fs (joinPath WORKFLOWS_DIR fname) = none →
        load_workflow fs wt = Except.error (PyErr.fileNotFoundError
          ("Workflow file not found: " ++ joinPath WORKFLOWS_DIR fname))))
    ∧ (lookupA AVAILABLE_WORKFLOWS wt = none →
        load_workflow fs wt = Except.error (PyErr.valueError
          ("Unknown workflow_type: " ++ wt ++ ". Available: " ++
            String.intercalate ", " (AVAILABLE_WORKFLOWS.map (fun p => p.1)))))
    ∧ String.intercalate ", " (AVAILABLE_WORKFLOWS.map (fun p => p.1)) =
        "t2v, i2v, fun_camera, vace" := by
  refine ⟨?_, ?_, rfl⟩
  · intro fname hreg
    constructor
    · intro g hfs
      simp [load_workflow, hreg, hfs]
    · intro hfs
      simp [load_workflow, hreg, hfs]
  · intro hreg
    simp [load_workflow, hreg]

theorem spec_c8_workflow_resolution_witness :
    load_workflow fsC8 "t2v" =
      Except.ok [("1", { class_type := some "KSampler", inputs := [], rest := [] })]
    ∧ load_workflow fsC8 "i2v" = Except.error (PyErr.fileNotFoundError
        "Workflow file not found: /comfyui/workflows/i2v.json")
    ∧ load_workflow fsC8 "bogus" = Except.error (PyErr.valueError
        "Unknown workflow_type: bogus. Available: t2v, i2v, fun_camera, vace") :=
  ⟨((spec_c8_workflow_resolution fsC8 "t2v").1 "t2v.json" rfl).1 _ rfl,
    ((spec_c8_workflow_resolution fsC8 "i2v").1 "i2v.json" rfl).2 rfl,
    (spec_c8_workflow_resolution fsC8 "bogus").2.1 rfl⟩

/-- C1: for every produced file, an upload success yields a remote-url
record (type, url, filename — structurally without inline data); an upload
failure on a file strictly under 10 MiB yields an inline base64 record
(type, data, format); an upload failure on a larger file yields an error
record whose message cites the byte size; and the loop emits one record per
file whatever the upload outcomes — a per-file failure never aborts the
invocation. -/
theorem spec_c1_delivery_tiers (env : DeliveryEnv) (wf : Option String) (ts : Nat)
    (files : List String) (i : Nat) (path : String) (hp : files[i]? = some path) :
    (deliver env wf ts files).length = files.length
    ∧ (∀ url, upload_to_s3 env.cfg (env.putOk i) (s3KeyOf wf ts i path) = Except.ok url →
        (deliver env wf ts files)[i]? =
          some (DeliveryRecord.remote (classify (splitextExt path)) url (basename path)))
    ∧ (∀ m, upload_to_s3 env.cfg (env.putOk i) (s3KeyOf wf ts i path) = Except.error m →
        env.size path < 10 * 1024 * 1024 →
        (deliver env wf ts files)[i]? =
          some (DeliveryRecord.inlineB64 (classifyFallback (splitextExt path))
            (env.b64 path) ((splitextExt path).drop 1)))
    ∧ (∀ m, upload_to_s3 env.cfg (env.putOk i) (s3KeyOf wf ts i path) = Except.error m →
        ¬ env.size path < 10 * 1024 * 1024 →
        (deliver env wf ts files)[i]? =
          some (DeliveryRecord.errorRec
            ("File too large for base64 encoding: " ++
              toString (env.size path) ++ " bytes"))) := by
  have hget : (deliver env wf ts files)[i]? = some (deliverOne env wf ts i path) := by
    unfold deliver
    rw [deliverFrom_getElem? env wf ts files 0 i, hp]
    simp
  refine ⟨?_, ?_, ?_, ?_⟩
  · unfold deliver
    exact deliverFrom_length env wf ts files 0
  · intro url hu
    rw [hget]
    simp only [deliverOne]
    rw [hu]
  · intro m hu hsz
    rw [hget]
    simp only [deliverOne]
    rw [hu, if_pos hsz]
  · intro m hu hsz
    rw [hget]
    simp only [deliverOne]
    rw [hu, if_neg hsz]

theorem spec_c1_delivery_tiers_witness :
    (deliver envC1 (some "t2v") 7 filesC1).length = filesC1.length
    ∧ (deliver envC1 (some "t2v") 7 filesC1)[0]? =
        some (DeliveryRecord.remote "image" "http://s3/bkt/generated/t2v/7_0.png" "a.png")
    ∧ (deliver envC1 (some "t2v") 7 filesC1)[1]? =
        some (DeliveryRecord.errorRec
          "File too large for base64 encoding: 20971520 bytes") :=
  ⟨(spec_c1_delivery_tiers envC1 (some "t2v") 7 filesC1 0 "/comfyui/output/a.png" rfl).1,
    (spec_c1_delivery_tiers envC1 (some "t2v") 7 filesC1 0 "/comfyui/output/a.png" rfl).2.1
      "http://s3/bkt/generated/t2v/7_0.png" rfl,
    (spec_c1_delivery_tiers envC1 (some "t2v") 7 filesC1 1 "/comfyui/output/big.bin" rfl).2.2.2
      "failed to upload" rfl (by decide)⟩

/-- C3 counterexample: on the base64 fallback path a `.gif` file is
classified `image`, not `unknown` — the fallback classifier has no unknown
case, unlike the success-path classifier. -/
theorem spec_c3_fallback_gif_image :
    deliverOne envC3x (some "t2v") 0 0 "/comfyui/output/a.gif" =
      DeliveryRecord.inlineB64 "image" "QQ" "gif"
    ∧ classifyFallback ".gif" = "image"
    ∧ classify ".gif" = "unknown" := ⟨rfl, rfl, rfl⟩

/-- C3 (amended): both delivery paths classify mp4/webm/avi/mov as video
and png/jpg/jpeg as image; for any other extension the success path yields
`unknown` while the base64 fallback path yields `image`. -/
theorem spec_c3_classification (env : DeliveryEnv) (wf : Option String)
    (ts i : Nat) (path : String) :
    (∀ url, upload_to_s3 env.cfg (env.putOk i) (s3KeyOf wf ts i path) = Except.ok url →
        deliverOne env wf ts i path =
          DeliveryRecord.remote (classify (splitextExt path)) url (basename path))
    ∧ (∀ m, upload_to_s3 env.cfg (env.putOk i) (s3KeyOf wf ts i path) = Except.error m →
        env.size path < 10 * 1024 * 1024 →
        deliverOne env wf ts i path =
          DeliveryRecord.inlineB64 (classifyFallback (splitextExt path))
            (env.b64 path) ((splitextExt path).drop 1))
    ∧ (∀ ext, (ext ∈ [".mp4", ".webm", ".avi", ".mov"] →
          classify ext = "video" ∧ classifyFallback ext = "video")
        ∧ (ext ∉ [".mp4", ".webm", ".avi", ".mov"] → ext ∈ [".png", ".jpg", ".jpeg"] →
          classify ext = "image" ∧ classifyFallback ext = "image")
        ∧ (ext ∉ [".mp4", ".webm", ".avi", ".mov"] → ext ∉ [".png", ".jpg", ".jpeg"] →
          classify ext = "unknown" ∧ classifyFallback ext = "image")) := by
  refine ⟨?_, ?_, ?_⟩
  · intro url hu
    simp only [deliverOne]
    rw [hu]
  · intro m hu hsz
    simp only [deliverOne]
    rw [hu, if_pos hsz]
  · intro ext
    refine ⟨fun h => ⟨?_, ?_⟩, fun h1 h2 => ⟨?_, ?_⟩, fun h1 h2 => ⟨?_, ?_⟩⟩
    · simp [classify, h]
    · simp [classifyFallback, h]
    · simp [classify, h1, h2]
    · simp [classifyFallback, h1]
    · simp [classify, h1, h2]
    · simp [classifyFallback, h1]

theorem spec_c3_classification_witness :
    deliverOne envC3w (some "t2v") 5 0 "/comfyui/output/cat.png" =
      DeliveryRecord.remote "image" "http://s3/bkt/generated/t2v/5_0.png" "cat.png" :=
  (spec_c3_classification envC3w (some "t2v") 5 0 "/comfyui/output/cat.png").1
    "http://s3/bkt/generated/t2v/5_0.png" rfl

/-- C4 counterexample: with all four storage values absent and a small
produced file, the invocation COMPLETES and carries an inline fallback
record — the configuration failure is recovered within the invocation by
the per-file fallback tier, not failed fast. -/
theorem spec_c4_config_recovered :
    handler envC4h evC4 =
      { status := "COMPLETED",
        outputs := some [DeliveryRecord.inlineB64 "image" "QUJD" "png"],
        metadata := some { workflow_name := none, execution_time := 3,
                           prompt_id := "abc" } } := rfl

/-- C4 (amended): absence of any of the four values makes `upload_to_s3`
raise at once, before any put attempt and with no retry; but the delivery
loop recovers the failure through the same fallback tier as any other
upload failure. -/
theorem spec_c4_config_failfast_fallback (cfg : S3Config) (ok : Bool) (k : String)
    (env : DeliveryEnv) (wf : Option String) (ts i : Nat) (path : String)
    (hmiss : cfg.endpoint = none ∨ cfg.bucket = none ∨ cfg.accessKey = none ∨
      cfg.secretKey = none)
    (hmiss2 : env.cfg.endpoint = none ∨ env.cfg.bucket = none ∨
      env.cfg.accessKey = none ∨ env.cfg.secretKey = none) :
    upload_to_s3 cfg ok k = Except.error "S3 configuration is incomplete"
    ∧ (env.size path < 10 * 1024 * 1024 →
        deliverOne env wf ts i path =
          DeliveryRecord.inlineB64 (classifyFallback (splitextExt path))
            (env.b64 path) ((splitextExt path).drop 1)) := by
  have hu : ∀ (c : S3Config) (b : Bool) (key : String),
      (c.endpoint = none ∨ c.bucket = none ∨ c.accessKey = none ∨ c.secretKey = none) →
      upload_to_s3 c b key = Except.error "S3 configuration is incomplete" := by
    intro c b key hm
    obtain ⟨e, bk, ak, sk⟩ := c
    rcases hm with hm | hm | hm | hm
    · simp only at hm
      subst hm
      cases bk <;> cases ak <;> cases sk <;> rfl
    · simp only at hm
      subst hm
      cases e <;> cases ak <;> cases sk <;> rfl
    · simp only at hm
      subst hm
      cases e <;> cases bk <;> cases sk <;> rfl
    · simp only at hm
      subst hm
      cases e <;> cases bk <;> cases ak <;> rfl
  refine ⟨hu cfg ok k hmiss, ?_⟩
  intro hsz
  simp only [deliverOne]
  rw [hu env.cfg (env.putOk i) (s3KeyOf wf ts i path) hmiss2, if_pos hsz]

theorem spec_c4_config_failfast_fallback_witness :
    upload_to_s3 cfgC4 true "generated/t2v/1_0.png" =
      Except.error "S3 configuration is incomplete"
    ∧ deliverOne { cfg := cfgC4, putOk := fun _ => true, size := fun _ => 5,
                   b64 := fun _ => "QUJD" } (some "t2v") 1 0 "/comfyui/output/cat.png" =
        DeliveryRecord.inlineB64 "image" "QUJD" "png" := by
  have h := spec_c4_config_failfast_fallback cfgC4 true "generated/t2v/1_0.png"
    { cfg := cfgC4, putOk := fun _ => true, size := fun _ => 5, b64 := fun _ => "QUJD" }
    (some "t2v") 1 0 "/comfyui/output/cat.png" (Or.inr (Or.inl rfl)) (Or.inr (Or.inl rfl))
  exact ⟨h.1, h.2 (by decide)⟩

/-- C2 counterexample: the FAILED result for an event lacking both
`workflow_name` and `workflow_json` carries the error message and the
status but no `execution_time` key, contradicting 'every FAILED result
contains the elapsed execution time'. -/
theorem spec_c2_failed_without_time :
    (handler envC2a evC2a).status = "FAILED"
    ∧ (handler envC2a evC2a).error = some "workflow_name or workflow_json is required"
    ∧ (handler envC2a evC2a).execution_time = none := ⟨rfl, rfl, rfl⟩

/-- C2 (amended): every FAILED result carries an error message string and
the status; every exception raised during the invocation is caught at the
top level and converted into a FAILED result that also carries the elapsed
execution time, never propagated — while the two early validation FAILED
returns carry no execution time. -/
theorem spec_c2_failed_shape (env : HandlerEnv) (event : Event) :
    ((handler env event).status = "FAILED" →
      ((handler env event).error).isSome = true)
    ∧ (∀ e, handlerBody env event = Except.error e →
        handler env event = { status := "FAILED", error := some (PyErr.str e),
                              execution_time := some env.elapsed }) := by
  constructor
  · intro hs
    unfold handler at hs ⊢
    cases hb : handlerBody env event with
    | ok r =>
        rw [hb] at hs
        exact handlerBody_ok_failed env event r hb hs
    | error e => rfl
  · intro e he
    unfold handler
    rw [he]

theorem spec_c2_failed_shape_witness :
    handler envC2b evC2b =
      { status := "FAILED",
        error := some "ComfyUI API server failed to start within timeout",
        execution_time := some 3 } :=
  (spec_c2_failed_shape envC2b evC2b).2
    (PyErr.runtimeError "ComfyUI API server failed to start within timeout") rfl
